import Mathlib

/-!
Shallow embedding of the `replace_with` crate (`src/lib.rs`).

The crate provides `replace_with(dest, default, f)`: read the value out of
the mutable slot `dest`, run the transform `f` on it, and write the result
back.  A `Drop`-based guard (`CatchUnwind`) makes this panic-safe: if `f`
unwinds, the guard's `Drop` implementation invokes the fallback closure,
which produces a replacement value and writes it into the slot before
unwinding continues past the call.

Modelling choices:
* The slot `dest : &mut T` is a `MemState`: the bit-pattern currently stored
  (`slotBits`) plus whether the location logically holds a live value
  (`slotValid`).  `ptr::read` copies the bits out and marks the slot
  logically moved out (the stale bits remain); `ptr::write` stores new bits
  without dropping the previous contents.
* Abnormal exits: the result of running a computation is a `Res`: a normal
  return, an unwinding panic, or a process abort.  A panic raised by a
  closure that is invoked from a `Drop` implementation running during
  unwinding is a double panic, which aborts the process (Rust runtime
  semantics); `std::process::abort()` is the fallback closure of
  `replace_with_or_abort` and is modelled as the producer whose result is
  `Res.aborted`.
* Side effects are counted in a `Trace`: slot writes, transform invocations,
  fallback-producer invocations, destructions of the extracted old value,
  drops of the uninvoked fallback producer, and runs of the guard's release
  action.  Invoking the transform consumes the extracted value (it is an
  `FnOnce(T) -> T`, which destroys its argument exactly once, either by
  moving it into the result or by dropping it during its own unwinding), so
  the old value's destruction is counted at the transform's invocation.  The
  stale copy left in the slot by `ptr::read` is only ever overwritten by
  `ptr::write` (which does not drop), never dropped.
-/

namespace ReplaceWith

/-- Side-effect counters accumulated over one execution: writes to the slot,
invocations of the transform `f`, invocations of the fallback producer,
destructions of the extracted old value, drops of the fallback producer
without invoking it, and runs of the unwind guard's release action. -/
structure Trace where
  writes : Nat
  fCalls : Nat
  fallbackCalls : Nat
  oldValueDrops : Nat
  producerDrops : Nat
  releaseRuns : Nat
deriving DecidableEq, Repr

/-- All counters at zero: the trace at the start of a call. -/
def Trace.zero : Trace := ⟨0, 0, 0, 0, 0, 0⟩

/-- The mutable slot `dest : &mut T`: the bits currently stored at the
location, and whether the location logically holds a live value of `T`
(false while the value has been moved out by `ptr::read` and not yet
replaced by `ptr::write`). -/
structure MemState (T : Type) where
  slotBits : T
  slotValid : Bool
deriving DecidableEq, Repr

/-- A slot holding the live value `a`, as seen by the caller on entry. -/
def initState {T : Type} (a : T) : MemState T := ⟨a, true⟩

/-- Result of running a computation: normal return with a value, an
unwinding panic propagating to the caller, or process termination. -/
inductive Res (α : Type) where
  | ok (a : α)
  | panicked
  | aborted
deriving DecidableEq, Repr

/-- A closure that may access the slot (the closures passed to
`catch_unwind` capture `dest`): it transforms the slot state and the trace
and produces a `Res`. -/
def Clo (T α : Type) : Type := MemState T → Trace → Res α × MemState T × Trace

/-- `ptr::read(dest)`: copy the bits out of the slot.  The slot is left
logically moved out, still holding the stale bits. -/
def ptrRead {T : Type} (s : MemState T) (tr : Trace) : T × MemState T × Trace :=
  (s.slotBits, ⟨s.slotBits, false⟩, tr)

/-- `ptr::write(dest, v)`: store `v` into the slot without reading or
dropping the previous contents; the slot becomes logically valid. -/
def ptrWrite {T : Type} (v : T) (_s : MemState T) (tr : Trace) : MemState T × Trace :=
  (⟨v, true⟩, { tr with writes := tr.writes + 1 })

/-- `impl Drop for CatchUnwind` (src/lib.rs lines 80 to 85): the guard's
release action reads the held producer `p` out of the `ManuallyDrop` and
invokes it.  The run of the release action is counted in `releaseRuns`. -/
def CatchUnwind.drop {T : Type} (p : Clo T Unit) : Clo T Unit := fun s tr =>
  p s { tr with releaseRuns := tr.releaseRuns + 1 }

/-- `catch_unwind(f, p)` (src/lib.rs lines 87 to 94): construct the guard
`x = CatchUnwind(ManuallyDrop::new(p))`, run `f`.
* If `f` returns `t` normally: `let _ = ptr::read(&*x.0)` reads the producer
  out of the guard and immediately drops it uninvoked (counted in
  `producerDrops`); `mem::forget(x)` then disarms the guard so its release
  action never runs; `t` is returned.
* If `f` unwinds: the guard `x` is dropped during unwinding, running its
  release action `CatchUnwind.drop`, after which the panic continues
  propagating.  If the release action itself panics, that is a panic during
  unwinding: a double panic, which aborts the process.
* If `f` aborts the process, nothing further runs. -/
def catch_unwind {T α : Type} (f : Clo T α) (p : Clo T Unit) : Clo T α := fun s tr =>
  match f s tr with
  | (.ok t, s1, tr1) =>
    (.ok t, s1, { tr1 with producerDrops := tr1.producerDrops + 1 })
  | (.panicked, s1, tr1) =>
    match CatchUnwind.drop p s1 tr1 with
    | (.ok _, s2, tr2) => (.panicked, s2, tr2)
    | (.panicked, s2, tr2) => (.aborted, s2, tr2)
    | (.aborted, s2, tr2) => (.aborted, s2, tr2)
  | (.aborted, s1, tr1) => (.aborted, s1, tr1)

/-- The closure `move || f(t)` passed to `catch_unwind` by `replace_with`.
The transform itself is modelled as `f : T → Option T`, where `none` means
`f` panics instead of returning.  Invoking `f` consumes the extracted value
`t` (`FnOnce(T) -> T` destroys its argument exactly once, whether it returns
or unwinds), so `oldValueDrops` is counted at the invocation together with
`fCalls`. -/
def transformClo {T : Type} (f : T → Option T) (t : T) : Clo T T := fun s tr =>
  match f t with
  | some b =>
    (.ok b, s, { tr with fCalls := tr.fCalls + 1, oldValueDrops := tr.oldValueDrops + 1 })
  | none =>
    (.panicked, s, { tr with fCalls := tr.fCalls + 1, oldValueDrops := tr.oldValueDrops + 1 })

/-- The closure `|| ptr::write(dest, default())` passed to `catch_unwind` by
`replace_with`.  The fallback producer `default` is modelled by its
behaviour when invoked: `Res.ok c` returns the value `c`, `Res.panicked`
panics, `Res.aborted` terminates the process (the producer of
`replace_with_or_abort`).  Its invocation is counted in `fallbackCalls`;
the write happens only if the producer returns. -/
def fallbackClo {T : Type} (default : Res T) : Clo T Unit := fun s tr =>
  match default with
  | .ok c =>
    match ptrWrite c s { tr with fallbackCalls := tr.fallbackCalls + 1 } with
    | (s2, tr2) => (.ok (), s2, tr2)
  | .panicked => (.panicked, s, { tr with fallbackCalls := tr.fallbackCalls + 1 })
  | .aborted => (.aborted, s, { tr with fallbackCalls := tr.fallbackCalls + 1 })

/-- `replace_with(dest, default, f)` (src/lib.rs lines 131 to 137):
`let t = ptr::read(dest)`, then
`let t = catch_unwind(move || f(t), || ptr::write(dest, default()))`, then
`ptr::write(dest, t)`.  A panic or abort from `catch_unwind` propagates and
the final write does not run. -/
def replace_with {T : Type} (default : Res T) (f : T → Option T) :
    MemState T → Trace → Res Unit × MemState T × Trace := fun s tr =>
  match ptrRead s tr with
  | (t, s0, tr0) =>
    match catch_unwind (transformClo f t) (fallbackClo default) s0 tr0 with
    | (.ok t2, s1, tr1) =>
      match ptrWrite t2 s1 tr1 with
      | (s2, tr2) => (.ok (), s2, tr2)
    | (.panicked, s1, tr1) => (.panicked, s1, tr1)
    | (.aborted, s1, tr1) => (.aborted, s1, tr1)

/-- `replace_with_or_default(dest, f)` (src/lib.rs lines 181 to 183):
literally `replace_with(dest, T::default, f)`.  `T::default` is the
canonical default value of `T`, modelled by Lean's `Inhabited` default; it
returns normally. -/
def replace_with_or_default {T : Type} [Inhabited T] (f : T → Option T) :
    MemState T → Trace → Res Unit × MemState T × Trace :=
  replace_with (Res.ok (default : T)) f

/-- `replace_with_or_abort(dest, f)` (src/lib.rs lines 221 to 223):
literally `replace_with(dest, || std::process::abort(), f)`; the fallback
producer terminates the process instead of returning. -/
def replace_with_or_abort {T : Type} (f : T → Option T) :
    MemState T → Trace → Res Unit × MemState T × Trace :=
  replace_with Res.aborted f

/-- `replace_with_or_abort_unchecked(dest, f)` (src/lib.rs lines 286 to
288): `ptr::write(dest, f(ptr::read(dest)))` with no guard at all.  If `f`
unwinds, the panic escapes with the slot still logically moved out (the
hazard the caller's `panic = "abort"` build guarantee must rule out). -/
def replace_with_or_abort_unchecked {T : Type} (f : T → Option T) :
    MemState T → Trace → Res Unit × MemState T × Trace := fun s tr =>
  match ptrRead s tr with
  | (t, s0, tr0) =>
    match transformClo f t s0 tr0 with
    | (.ok b, s1, tr1) =>
      match ptrWrite b s1 tr1 with
      | (s2, tr2) => (.ok (), s2, tr2)
    | (.panicked, s1, tr1) => (.panicked, s1, tr1)
    | (.aborted, s1, tr1) => (.aborted, s1, tr1)

/-- A closure that does not touch the guard-bookkeeping counters of the
trace (real transforms and fallback producers never run a guard of their
own in this crate). -/
def PreservesGuardCounters {T α : Type} (c : Clo T α) : Prop :=
  ∀ s tr, ((c s tr).2.2.releaseRuns = tr.releaseRuns) ∧
    ((c s tr).2.2.producerDrops = tr.producerDrops)

/-- Side-effect discipline of one call of a guarded variant, where `fres`
is the behaviour of the transform on the extracted value: the transform ran
exactly once; the slot was written at most once, and exactly once unless
the process aborted; the fallback producer was invoked exactly once if the
transform unwound and not at all if it returned. -/
def SideEffectsOnce {T : Type} (r : Res Unit × MemState T × Trace) (fres : Option T) : Prop :=
  r.2.2.fCalls = 1 ∧ r.2.2.writes ≤ 1 ∧ (r.1 ≠ Res.aborted → r.2.2.writes = 1) ∧
    (fres = none → r.2.2.fallbackCalls = 1) ∧ (∀ b, fres = some b → r.2.2.fallbackCalls = 0)

/-- Claim C1: normal path of the core primitive.  For every slot value `a`
and transform `f` returning `b` (without unwinding), `replace_with` returns
normally with the slot holding `b` and valid, having invoked the fallback
producer zero times, destroyed the old value exactly once, written the slot
exactly once, and dropped the uninvoked producer once. -/
theorem normal_path {T : Type} (a b : T) (default : Res T) (f : T → Option T)
    (hf : f a = some b) :
    replace_with default f (initState a) Trace.zero =
      (Res.ok (), ⟨b, true⟩, ⟨1, 1, 0, 1, 1, 0⟩) := by
  simp [replace_with, catch_unwind, transformClo, fallbackClo, ptrRead, ptrWrite,
    initState, Trace.zero, CatchUnwind.drop, hf]

/-- Witness for C1 at `T = Nat`, `a = 5`, `f = (· + 1)`. -/
theorem normal_path_witness :
    replace_with (Res.ok 7) (fun n : Nat => some (n + 1)) (initState 5) Trace.zero =
      (Res.ok (), ⟨6, true⟩, ⟨1, 1, 0, 1, 1, 0⟩) :=
  normal_path 5 6 (Res.ok 7) (fun n : Nat => some (n + 1)) rfl

/-- Claim C2: abnormal path of the core primitive.  For every slot value
`a`, transform `f` that unwinds, and fallback producer returning `c`, the
call exits by the propagating panic (not a normal return) with the slot
holding `c` and valid, the fallback invoked exactly once, the old value
destroyed exactly once, the slot written exactly once, and the guard's
release action having run exactly once. -/
theorem abnormal_path {T : Type} (a c : T) (f : T → Option T) (hf : f a = none) :
    replace_with (Res.ok c) f (initState a) Trace.zero =
      (Res.panicked, ⟨c, true⟩, ⟨1, 1, 1, 1, 0, 1⟩) := by
  simp [replace_with, catch_unwind, transformClo, fallbackClo, ptrRead, ptrWrite,
    initState, Trace.zero, CatchUnwind.drop, hf]

/-- Witness for C2 at `T = Nat`, `a = 5`, a panicking transform, `c = 7`. -/
theorem abnormal_path_witness :
    replace_with (Res.ok 7) (fun _ : Nat => none) (initState 5) Trace.zero =
      (Res.panicked, ⟨7, true⟩, ⟨1, 1, 1, 1, 0, 1⟩) :=
  abnormal_path 5 7 (fun _ : Nat => none) rfl

/-- Claim C3 (amended): for every single call to any variant, the transform
runs exactly once, the slot is written at most once — exactly once unless
the process terminates (guarded variants), respectively unless the
transform unwinds (unchecked variant) — and for the guarded variants the
fallback producer runs if and only if the transform exited abnormally; the
unchecked variant never invokes a fallback. -/
theorem side_effects_once {T : Type} [Inhabited T] (default : Res T) (f : T → Option T)
    (a : T) :
    SideEffectsOnce (replace_with default f (initState a) Trace.zero) (f a) ∧
    SideEffectsOnce (replace_with_or_default f (initState a) Trace.zero) (f a) ∧
    SideEffectsOnce (replace_with_or_abort f (initState a) Trace.zero) (f a) ∧
    ((replace_with_or_abort_unchecked f (initState a) Trace.zero).2.2.fCalls = 1 ∧
      (replace_with_or_abort_unchecked f (initState a) Trace.zero).2.2.writes ≤ 1 ∧
      ((replace_with_or_abort_unchecked f (initState a) Trace.zero).1 ≠ Res.panicked →
        (replace_with_or_abort_unchecked f (initState a) Trace.zero).2.2.writes = 1) ∧
      (replace_with_or_abort_unchecked f (initState a) Trace.zero).2.2.fallbackCalls = 0) := by
  cases hfa : f a with
  | none =>
    cases default <;>
      simp [SideEffectsOnce, replace_with, replace_with_or_default, replace_with_or_abort,
        replace_with_or_abort_unchecked, catch_unwind, transformClo, fallbackClo, ptrRead,
        ptrWrite, initState, Trace.zero, CatchUnwind.drop, hfa]
  | some b =>
    cases default <;>
      simp [SideEffectsOnce, replace_with, replace_with_or_default, replace_with_or_abort,
        replace_with_or_abort_unchecked, catch_unwind, transformClo, fallbackClo, ptrRead,
        ptrWrite, initState, Trace.zero, CatchUnwind.drop, hfa]

/-- Witness for C3 (amended) at `T = Nat`, a panicking transform and the
explicit-fallback variant: the fallback runs exactly once. -/
theorem side_effects_once_witness :
    (replace_with (Res.ok 7) (fun _ : Nat => none) (initState 5) Trace.zero).2.2.fallbackCalls
      = 1 :=
  (side_effects_once (Res.ok 7) (fun _ : Nat => none) 5).1.2.2.2.1 rfl

/-- Counterexample to C3 as stated: a call to `replace_with_or_abort` whose
transform unwinds performs zero writes to the slot, not exactly one — the
fallback producer aborts the process before any write happens. -/
theorem side_effects_abort_no_write :
    (replace_with_or_abort (fun _ : Nat => none) (initState 0) Trace.zero).2.2.writes ≠ 1 := by
  decide

/-- Claim C4: slot validity.  At every observation point reachable by
outside code — a normal return or the unwinding continuing past the call —
the slot holds a fully valid value: whenever a guarded variant's call exits
at all (its result is not a process abort), the final slot is valid; for
the unchecked variant the same holds under its precondition that the
transform returns normally. -/
theorem slot_always_valid {T : Type} [Inhabited T] (default : Res T) (f : T → Option T)
    (a : T) :
    ((replace_with default f (initState a) Trace.zero).1 ≠ Res.aborted →
      (replace_with default f (initState a) Trace.zero).2.1.slotValid = true) ∧
    ((replace_with_or_default f (initState a) Trace.zero).1 ≠ Res.aborted →
      (replace_with_or_default f (initState a) Trace.zero).2.1.slotValid = true) ∧
    ((replace_with_or_abort f (initState a) Trace.zero).1 ≠ Res.aborted →
      (replace_with_or_abort f (initState a) Trace.zero).2.1.slotValid = true) ∧
    (∀ b, f a = some b →
      (replace_with_or_abort_unchecked f (initState a) Trace.zero).2.1.slotValid = true) := by
  cases hfa : f a with
  | none =>
    cases default <;>
      simp [replace_with, replace_with_or_default, replace_with_or_abort,
        replace_with_or_abort_unchecked, catch_unwind, transformClo, fallbackClo, ptrRead,
        ptrWrite, initState, Trace.zero, CatchUnwind.drop, hfa]
  | some b =>
    cases default <;>
      simp [replace_with, replace_with_or_default, replace_with_or_abort,
        replace_with_or_abort_unchecked, catch_unwind, transformClo, fallbackClo, ptrRead,
        ptrWrite, initState, Trace.zero, CatchUnwind.drop, hfa]

/-- Witness for C4 at `T = Nat`: a panicking transform with a returning
fallback leaves the slot valid when the panic propagates out. -/
theorem slot_always_valid_witness :
    (replace_with (Res.ok 7) (fun _ : Nat => none) (initState 5) Trace.zero).2.1.slotValid
      = true :=
  (slot_always_valid (Res.ok 7) (fun _ : Nat => none) 5).1 (by decide)

/-- Claim C5: abort variant.  For every slot value `a` and transform that
unwinds, `replace_with_or_abort` ends in process termination: the result is
an abort, so control neither returns normally nor continues unwinding past
the call. -/
theorem abort_variant_terminates {T : Type} (a : T) (f : T → Option T) (hf : f a = none) :
    replace_with_or_abort f (initState a) Trace.zero =
      (Res.aborted, ⟨a, false⟩, ⟨0, 1, 1, 1, 0, 1⟩) := by
  simp [replace_with_or_abort, replace_with, catch_unwind, transformClo, fallbackClo,
    ptrRead, ptrWrite, initState, Trace.zero, CatchUnwind.drop, hf]

/-- Witness for C5 at `T = Nat`, `a = 5`, a panicking transform. -/
theorem abort_variant_terminates_witness :
    replace_with_or_abort (fun _ : Nat => none) (initState 5) Trace.zero =
      (Res.aborted, ⟨5, false⟩, ⟨0, 1, 1, 1, 0, 1⟩) :=
  abort_variant_terminates 5 (fun _ : Nat => none) rfl

/-- Claim C6: default-fallback variant equivalence.
`replace_with_or_default(dest, f)` behaves identically to
`replace_with(dest, T::default, f)` on every input; on the normal path the
slot ends holding the transform's result, and when the transform unwinds
the slot ends holding `T`'s default value. -/
theorem default_variant_equiv {T : Type} [Inhabited T] (f : T → Option T) :
    (∀ s tr, replace_with_or_default f s tr = replace_with (Res.ok (default : T)) f s tr) ∧
    (∀ a b, f a = some b →
      (replace_with_or_default f (initState a) Trace.zero).2.1 = ⟨b, true⟩) ∧
    (∀ a, f a = none →
      replace_with_or_default f (initState a) Trace.zero =
        (Res.panicked, ⟨(default : T), true⟩, ⟨1, 1, 1, 1, 0, 1⟩)) := by
  refine ⟨fun s tr => rfl, fun a b hf => ?_, fun a hf => ?_⟩ <;>
    simp [replace_with_or_default, replace_with, catch_unwind, transformClo, fallbackClo,
      ptrRead, ptrWrite, initState, Trace.zero, CatchUnwind.drop, hf]

/-- Witness for C6 at `T = Nat` (`default = 0`): equivalence at one input,
and the slot ends at the default value under a panicking transform. -/
theorem default_variant_equiv_witness :
    (replace_with_or_default (fun n : Nat => some (n + 1)) (initState 5) Trace.zero =
      replace_with (Res.ok (default : Nat)) (fun n : Nat => some (n + 1))
        (initState 5) Trace.zero) ∧
    replace_with_or_default (fun _ : Nat => none) (initState 5) Trace.zero =
      (Res.panicked, ⟨(default : Nat), true⟩, ⟨1, 1, 1, 1, 0, 1⟩) :=
  ⟨(default_variant_equiv (fun n : Nat => some (n + 1))).1 (initState 5) Trace.zero,
    (default_variant_equiv (fun _ : Nat => none)).2.2 5 rfl⟩

/-- Claim C7: the unwind guard's release action runs exactly once when the
guard's scope exits while still armed (the protected closure unwound), and
zero times when the guard was disarmed on the normal path — where the
producer is instead read out and dropped exactly once without being
invoked.  Stated for closures that do not themselves touch the guard
bookkeeping counters. -/
theorem guard_release_exactly_once {T α : Type} (f : Clo T α) (p : Clo T Unit)
    (s : MemState T) (tr : Trace) (hf : PreservesGuardCounters f)
    (hp : PreservesGuardCounters p) :
    ((f s tr).1 = Res.panicked →
      (catch_unwind f p s tr).2.2.releaseRuns = tr.releaseRuns + 1) ∧
    (∀ t, (f s tr).1 = Res.ok t →
      (catch_unwind f p s tr).2.2.releaseRuns = tr.releaseRuns ∧
      (catch_unwind f p s tr).2.2.producerDrops = tr.producerDrops + 1) := by
  obtain ⟨hf1, hf2⟩ := hf s tr
  rcases hEq : f s tr with ⟨r1, s1, tr1⟩
  rw [hEq] at hf1 hf2
  cases r1 with
  | ok t =>
    simp only [] at hf1 hf2
    refine ⟨by simp [catch_unwind, hEq], fun t2 h2 => ?_⟩
    simp [catch_unwind, hEq, hf1, hf2]
  | panicked =>
    refine ⟨fun _ => ?_, by simp [catch_unwind, hEq]⟩
    obtain ⟨hp1, hp2⟩ := hp s1 { tr1 with releaseRuns := tr1.releaseRuns + 1 }
    rcases hPEq : p s1 { tr1 with releaseRuns := tr1.releaseRuns + 1 } with ⟨r2, s2, tr2⟩
    rw [hPEq] at hp1 hp2
    cases r2 <;> simp_all [catch_unwind, CatchUnwind.drop, hEq, hPEq]
  | aborted =>
    exact ⟨by simp [catch_unwind, hEq], by simp [catch_unwind, hEq]⟩

/-- Witness for C7 at `T = Nat` with a closure that unwinds and an identity
producer: the release action runs exactly once. -/
theorem guard_release_exactly_once_witness :
    (catch_unwind (fun (s : MemState Nat) (tr : Trace) => ((Res.panicked : Res Unit), s, tr))
        (fun s tr => (Res.ok (), s, tr)) (initState 0) Trace.zero).2.2.releaseRuns =
      Trace.zero.releaseRuns + 1 :=
  (guard_release_exactly_once
    (fun (s : MemState Nat) (tr : Trace) => ((Res.panicked : Res Unit), s, tr))
    (fun s tr => (Res.ok (), s, tr)) (initState 0) Trace.zero
    (fun _ _ => ⟨rfl, rfl⟩) (fun _ _ => ⟨rfl, rfl⟩)).1 rfl

/-- Claim C8: double-fault handling.  If the transform unwinds and the
fallback producer itself panics while the guard's release action is
running, the process terminates: the call's result is an abort, never a
propagating panic that a caller could catch. -/
theorem double_fault_aborts {T : Type} (a : T) (f : T → Option T) (hf : f a = none) :
    (replace_with Res.panicked f (initState a) Trace.zero).1 = Res.aborted ∧
    (replace_with Res.panicked f (initState a) Trace.zero).1 ≠ Res.panicked := by
  simp [replace_with, catch_unwind, transformClo, fallbackClo, ptrRead, ptrWrite,
    initState, Trace.zero, CatchUnwind.drop, hf]

/-- Witness for C8 at `T = Nat`, `a = 5`, a panicking transform and a
panicking fallback producer. -/
theorem double_fault_aborts_witness :
    (replace_with Res.panicked (fun _ : Nat => none) (initState 5) Trace.zero).1 =
      Res.aborted :=
  (double_fault_aborts 5 (fun _ : Nat => none) rfl).1

/-- Claim C9: unchecked abort variant.  Under its precondition that the
transform returns normally, `replace_with_or_abort_unchecked` performs
exactly extract, transform, write — one transform invocation, one write, no
fallback invocation, no producer drop, no guard release — and ends in the
same result and final slot state as the guarded abort variant does on its
normal path. -/
theorem unchecked_variant_normal {T : Type} (a b : T) (f : T → Option T)
    (hf : f a = some b) :
    replace_with_or_abort_unchecked f (initState a) Trace.zero =
      (Res.ok (), ⟨b, true⟩, ⟨1, 1, 0, 1, 0, 0⟩) ∧
    (replace_with_or_abort_unchecked f (initState a) Trace.zero).2.1 =
      (replace_with_or_abort f (initState a) Trace.zero).2.1 ∧
    (replace_with_or_abort_unchecked f (initState a) Trace.zero).1 =
      (replace_with_or_abort f (initState a) Trace.zero).1 := by
  simp [replace_with_or_abort_unchecked, replace_with_or_abort, replace_with, catch_unwind,
    transformClo, fallbackClo, ptrRead, ptrWrite, initState, Trace.zero,
    CatchUnwind.drop, hf]

/-- Witness for C9 at `T = Nat`, `a = 5`, `f = (· * 2)`. -/
theorem unchecked_variant_normal_witness :
    replace_with_or_abort_unchecked (fun n : Nat => some (n * 2)) (initState 5) Trace.zero =
      (Res.ok (), ⟨10, true⟩, ⟨1, 1, 0, 1, 0, 0⟩) :=
  (unchecked_variant_normal 5 10 (fun n : Nat => some (n * 2)) rfl).1

/-- Claim C10: on the normal path of `replace_with`, the uninvoked fallback
producer is read out of the disarmed guard and dropped exactly once without
being invoked, and the guard's release action never runs. -/
theorem producer_dropped_once {T : Type} (a b : T) (default : Res T) (f : T → Option T)
    (hf : f a = some b) :
    (replace_with default f (initState a) Trace.zero).2.2.producerDrops = 1 ∧
    (replace_with default f (initState a) Trace.zero).2.2.fallbackCalls = 0 ∧
    (replace_with default f (initState a) Trace.zero).2.2.releaseRuns = 0 := by
  simp [replace_with, catch_unwind, transformClo, fallbackClo, ptrRead, ptrWrite,
    initState, Trace.zero, CatchUnwind.drop, hf]

/-- Witness for C10 at `T = Nat`, `a = 5`, `f = (· + 1)`. -/
theorem producer_dropped_once_witness :
    (replace_with (Res.ok 7) (fun n : Nat => some (n + 1)) (initState 5)
        Trace.zero).2.2.producerDrops = 1 :=
  (producer_dropped_once 5 6 (Res.ok 7) (fun n : Nat => some (n + 1)) rfl).1

end ReplaceWith
